import Mathlib

/-!
Shallow embedding of the stack-pointer-adjustment tracking subsystem of
drmemory (src/drmemory/stack.c), together with theorems settling the
specification claims about it.  External collaborators (the region resolver,
shadow memory and application memory) are modelled as explicit parameters and
state.  Machine integers are modelled as `Int`; pointer wraparound, which is
undefined behaviour in the source, is not modelled.  Ghost counters
(`region_lookups`, `patcher_invocations`, `warnings`) record events the
specification talks about (region lookups, Runtime Patcher invocations,
logged warnings) without changing the modelled data flow.
-/

namespace DrMemoryStack

/-- The x86 page size used by `PAGE_SIZE` in the source. -/
def PAGE_SIZE : Int := 4096

/-- Source: `#define MAX_NUMBER_NON_SWAPS 32`. -/
def MAX_NUMBER_NON_SWAPS : Int := 32

/-- Source: `#define MIN_SWAP_THRESHOLD 2048`. -/
def MIN_SWAP_THRESHOLD : Int := 2048

/-- Per-byte shadow-memory states (`SHADOW_UNADDRESSABLE`, `SHADOW_UNDEFINED`,
`SHADOW_DEFINED`). -/
inductive SVal where
  | unaddressable
  | undefined
  | defined
  deriving DecidableEq, Repr

/-- Shadow memory of the Shadow Memory collaborator, one state per byte. -/
abbrev Shadow := Int → SVal

/-- Application memory, one byte value per address. -/
abbrev AppMem := Int → Int

/-- The Shadow Memory collaborator's `shadow_set_range(start, end, val)`:
set every byte of the half-open range `[start, stop)` to `v`. -/
def shadow_set_range (start stop : Int) (v : SVal) (s : Shadow) : Shadow :=
  fun a => if start ≤ a ∧ a < stop then v else s a

/-- `memset(start, 0, len)` over application memory. -/
def memset_zero (start len : Int) (mem : AppMem) : AppMem :=
  fun a => if start ≤ a ∧ a < start + len then 0 else mem a

/-- The Region Resolver collaborator: the three lookup primitives consumed by
`get_stack_region_bounds`, plus the heap-region membership test that guards
them. -/
structure RegionEnv where
  is_in_heap_region : Int → Bool
  malloc_large_lookup : Int → Option (Int × Int)
  mmap_anon_lookup : Int → Option (Int × Int)
  dr_query_memory : Int → Option (Int × Int)

/-- Source `get_stack_region_bounds` (stack.c:97-110): if `addr` is in the
heap region the result is whatever `malloc_large_lookup` returns (a small
malloc makes the whole routine fail); otherwise `mmap_anon_lookup` is tried
and then `dr_query_memory`. -/
def get_stack_region_bounds (env : RegionEnv) (addr : Int) : Option (Int × Int) :=
  if env.is_in_heap_region addr then
    env.malloc_large_lookup addr
  else
    match env.mmap_anon_lookup addr with
    | some r => some r
    | none => env.dr_query_memory addr

/-- The process-wide mutable state of the swap heuristic: the adaptive
threshold `options.stack_swap_threshold`, the static counter `num_non_swaps`
of `check_stack_swap`, the statistics counters `stack_swap_triggers` and
`stack_swaps`, plus ghost counters for region lookups and Runtime Patcher
invocations. -/
structure SwapState where
  stack_swap_threshold : Int
  num_non_swaps : Int
  stack_swap_triggers : Nat
  stack_swaps : Nat
  region_lookups : Nat
  patcher_invocations : Nat
  deriving DecidableEq, Repr

/-- Modelled from the spec: `update_stack_swap_threshold` is declared in
drmemory.h but its body is not part of this repository slice.  Per the spec
(sections 4.2 and 4.5) it installs the new process-wide threshold and then
invokes the Runtime Patcher on the generated fragments, which the ghost
counter records. -/
def update_stack_swap_threshold (st : SwapState) (new_thresh : Int) : SwapState :=
  { st with stack_swap_threshold := new_thresh,
            patcher_invocations := st.patcher_invocations + 1 }

/-- Source `check_stack_swap` (stack.c:112-150).  Returns the classification
(`true` = genuine swap) and the updated global state.  `stack_swap_triggers`
counts every invocation, and every invocation performs exactly one region
lookup (ghost-counted).  In the false-alarm branch the source executes
`if (num_non_swaps++ > MAX_NUMBER_NON_SWAPS)`: the pre-increment value is
compared, and on a bump the counter is reset to 0 and the threshold is raised
by one page. -/
def check_stack_swap (env : RegionEnv) (st : SwapState) (cur_xsp new_xsp : Int) :
    Bool × SwapState :=
  let st1 : SwapState :=
    { st with stack_swap_triggers := st.stack_swap_triggers + 1,
              region_lookups := st.region_lookups + 1 }
  match get_stack_region_bounds env cur_xsp with
  | some bs =>
      if bs.1 ≤ new_xsp ∧ new_xsp < bs.1 + bs.2 then
        if st1.num_non_swaps > MAX_NUMBER_NON_SWAPS then
          (false, update_stack_swap_threshold { st1 with num_non_swaps := 0 }
                    (st1.stack_swap_threshold + PAGE_SIZE))
        else
          (false, { st1 with num_non_swaps := st1.num_non_swaps + 1 })
      else
        (true, { st1 with stack_swaps := st1.stack_swaps + 1 })
  | none =>
      (true, { st1 with stack_swaps := st1.stack_swaps + 1 })

/-- Source `check_stack_size_vs_threshold` (stack.c:67-92): when a stack's
size is below the current threshold, drop the threshold to the fixed
minimum floor (the inner guard is the source's own dead re-check). -/
def check_stack_size_vs_threshold (st : SwapState) (stack_size : Int) : SwapState :=
  if stack_size < st.stack_swap_threshold then
    let new_thresh : Int := MIN_SWAP_THRESHOLD
    let new_thresh : Int :=
      if new_thresh < MIN_SWAP_THRESHOLD then MIN_SWAP_THRESHOLD else new_thresh
    if new_thresh < st.stack_swap_threshold then
      update_stack_swap_threshold st new_thresh
    else st
  else st

/-- The pure classification computed by `check_stack_swap`, which depends only
on the resolver and the two pointers: `true` (swap) unless bounds resolve and
the candidate pointer lies inside them. -/
def is_stack_swap (env : RegionEnv) (cur_xsp new_xsp : Int) : Bool :=
  match get_stack_region_bounds env cur_xsp with
  | some bs => ! decide (bs.1 ≤ new_xsp ∧ new_xsp < bs.1 + bs.2)
  | none => true

/-- State transition of one false-alarm (in-bounds) `check_stack_swap` call,
extracted for reasoning about consecutive false alarms. -/
def false_alarm_transition (st : SwapState) : SwapState :=
  if st.num_non_swaps > MAX_NUMBER_NON_SWAPS then
    { st with stack_swap_triggers := st.stack_swap_triggers + 1,
              region_lookups := st.region_lookups + 1,
              num_non_swaps := 0,
              stack_swap_threshold := st.stack_swap_threshold + PAGE_SIZE,
              patcher_invocations := st.patcher_invocations + 1 }
  else
    { st with stack_swap_triggers := st.stack_swap_triggers + 1,
              region_lookups := st.region_lookups + 1,
              num_non_swaps := st.num_non_swaps + 1 }

/-- One classifier invocation viewed as a state transformer (the scenario
steps of spec section 8 iterate this). -/
def false_alarm_step (env : RegionEnv) (cur_xsp new_xsp : Int) :
    SwapState → SwapState :=
  fun st => (check_stack_swap env st cur_xsp new_xsp).2

/-- The adjustment kinds of `esp_adjust_t` (stack.c:251-260). -/
inductive EspAdjust where
  | absolute
  | negative
  | positive
  | ret_immed
  | and_mask
  | invalid
  deriving DecidableEq, Repr

/-- The machine-visible state `handle_esp_adjust` operates on: the app's
stack pointer from the mcontext, shadow memory, application memory, the
global swap-heuristic state, the `adjust_esp_executions` statistic, and a
ghost count of logged warnings. -/
structure Machine where
  esp : Int
  shadow : Shadow
  mem : AppMem
  swap : SwapState
  adjust_esp_executions : Nat
  warnings : Nat

/-- The common tail of `handle_esp_adjust` (stack.c:337-351): for a nonzero
delta, in full-tracking mode mark the half-open byte range between the two
pointers (`delta > 0`: `[esp, esp+delta)` becomes unaddressable; `delta < 0`:
`[esp+delta, esp)` becomes undefined); in lightweight mode zero-fill newly
allocated stack memory and ignore deallocation. -/
def esp_adjust_tail (shadow_sp : Bool) (delta esp : Int) (m : Machine) : Machine :=
  if delta ≠ 0 then
    if shadow_sp then
      { m with shadow :=
          (shadow_set_range (if delta > 0 then esp else esp + delta)
            (if delta > 0 then esp + delta else esp)
            (if delta > 0 then SVal.unaddressable else SVal.undefined) m.shadow) }
    else if delta < 0 then
      { m with mem := memset_zero (esp + delta) (-delta) m.mem }
    else m
  else m

/-- The relative-adjustment arm of `handle_esp_adjust` (stack.c:324-336):
negate the value for `ESP_ADJUST_NEGATIVE`, log a warning when a relative
delta exceeds the swap threshold (no region lookup, no swap classification),
account for the implicit pop of the return address for `ESP_ADJUST_RET_IMMED`,
then run the common tail. -/
def handle_esp_relative (shadow_sp : Bool) (ty : EspAdjust) (val : Int)
    (m : Machine) : Machine :=
  esp_adjust_tail shadow_sp
    (if ty = EspAdjust.negative then -val else val)
    (if ty = EspAdjust.ret_immed then m.esp + 4 else m.esp)
    (if (if ty = EspAdjust.negative then -val else val) > m.swap.stack_swap_threshold ∨
        (if ty = EspAdjust.negative then -val else val) < -m.swap.stack_swap_threshold then
       { m with warnings := m.warnings + 1 }
     else m)

/-- Source `handle_esp_adjust` (stack.c:296-352).  For `ESP_ADJUST_ABSOLUTE`
and `ESP_ADJUST_AND` the delta is computed against the current stack pointer
and, when its magnitude exceeds the threshold, `check_stack_swap` decides
between a confirmed swap (return with no shadow or memory mutation) and an
oversized in-region adjustment (fall through to the common tail).  All other
kinds are handled by the relative arm. -/
def handle_esp_adjust (shadow_sp : Bool) (env : RegionEnv) (type : EspAdjust)
    (val : Int) (m0 : Machine) : Machine :=
  let m : Machine := { m0 with adjust_esp_executions := m0.adjust_esp_executions + 1 }
  match type with
  | EspAdjust.absolute =>
      if val - m0.esp > m0.swap.stack_swap_threshold ∨
         val - m0.esp < -m0.swap.stack_swap_threshold then
        if (check_stack_swap env m.swap m0.esp val).1 then
          { m with swap := (check_stack_swap env m.swap m0.esp val).2 }
        else
          esp_adjust_tail shadow_sp (val - m0.esp) m0.esp
            { m with swap := (check_stack_swap env m.swap m0.esp val).2 }
      else
        esp_adjust_tail shadow_sp (val - m0.esp) m0.esp m
  | EspAdjust.and_mask =>
      if Int.land m0.esp val - m0.esp > m0.swap.stack_swap_threshold ∨
         Int.land m0.esp val - m0.esp < -m0.swap.stack_swap_threshold then
        if (check_stack_swap env m.swap m0.esp (Int.land m0.esp val)).1 then
          { m with swap := (check_stack_swap env m.swap m0.esp (Int.land m0.esp val)).2 }
        else
          esp_adjust_tail shadow_sp (Int.land m0.esp val - m0.esp) m0.esp
            { m with swap := (check_stack_swap env m.swap m0.esp (Int.land m0.esp val)).2 }
      else
        esp_adjust_tail shadow_sp (Int.land m0.esp val - m0.esp) m0.esp m
  | ty => handle_esp_relative shadow_sp ty val m

/-- The signed delta an adjustment event of the given kind produces, exactly
as `handle_esp_adjust` computes it. -/
def esp_adjust_delta (type : EspAdjust) (val esp : Int) : Int :=
  match type with
  | EspAdjust.absolute => val - esp
  | EspAdjust.and_mask => Int.land esp val - esp
  | EspAdjust.negative => -val
  | _ => val

/-- The stack-pointer base the common tail measures the delta from: the
pre-adjustment pointer, after accounting for the implicit pop of the return
address for `ESP_ADJUST_RET_IMMED`. -/
def esp_adjust_base (type : EspAdjust) (esp : Int) : Int :=
  if type = EspAdjust.ret_immed then esp + 4 else esp

/-- The event reaches the swap classifier: an absolute or mask kind whose
delta magnitude exceeds the current threshold. -/
abbrev swap_checked (env : RegionEnv) (type : EspAdjust) (val : Int) (m : Machine) : Prop :=
  (type = EspAdjust.absolute ∨ type = EspAdjust.and_mask) ∧
  (esp_adjust_delta type val m.esp > m.swap.stack_swap_threshold ∨
   esp_adjust_delta type val m.esp < -m.swap.stack_swap_threshold)

/-- The event is classified as a confirmed stack swap. -/
abbrev confirmed_swap (env : RegionEnv) (type : EspAdjust) (val : Int) (m : Machine) : Prop :=
  swap_checked env type val m ∧
  is_stack_swap env m.esp (m.esp + esp_adjust_delta type val m.esp) = true

/-- Result of `handle_push_addressable`: the returned flag, the shadow memory
after the call, the global state after the threshold-sizing policy ran, and
whether the unresolved-bounds diagnostic fired. -/
structure PushResult where
  handled : Bool
  shadow : Shadow
  swap : SwapState
  errored : Bool

/-- Source `handle_push_addressable` (stack.c:152-232), with the
`options.check_push` flag passed explicitly.  On resolved bounds it marks
`[max(addr - PAGE_SIZE, region start), start_addr)` unaddressable (written
with the source's conditional), feeds the region size to the threshold-sizing
policy, and reports `handled = true`; on unresolved bounds it mutates nothing
and reports the diagnostic. -/
def handle_push_addressable (check_push : Bool) (env : RegionEnv)
    (addr start_addr : Int) (sz : Int) (shadow : Shadow) (st : SwapState) :
    PushResult :=
  if check_push then
    match get_stack_region_bounds env addr with
    | some bs =>
        { handled := true
          shadow := shadow_set_range
              (if addr - PAGE_SIZE < bs.1 then bs.1 else addr - PAGE_SIZE)
              start_addr SVal.unaddressable shadow
          swap := check_stack_size_vs_threshold
              { st with region_lookups := st.region_lookups + 1 } bs.2
          errored := false }
    | none =>
        { handled := false
          shadow := shadow
          swap := { st with region_lookups := st.region_lookups + 1 }
          errored := true }
  else
    { handled := false, shadow := shadow, swap := st, errored := false }

/-- Decoded view of one generated-code instruction as the Runtime Patcher
sees it: a compare of a register against an immediate, or anything else. -/
inductive GenInstr where
  | cmp_ri (reg : Nat) (imm : Int)
  | other (tag : Nat)
  deriving DecidableEq, Repr

/-- One decode step of `esp_fastpath_update_swap_threshold`'s scan: a
`cmp reg, imm` whose immediate equals the old threshold (positive or negated)
is rewritten to the corresponding new value and counted. -/
def patch_one (old_t new_t : Int) (i : GenInstr) : GenInstr × Nat :=
  match i with
  | GenInstr.cmp_ri r imm =>
      if imm = old_t then (GenInstr.cmp_ri r new_t, 1)
      else if imm = -old_t then (GenInstr.cmp_ri r (-new_t), 1)
      else (i, 0)
  | i => (i, 0)

/-- The scan loop of `esp_fastpath_update_swap_threshold` over one fragment:
walk the decoded instructions patching threshold immediates, stopping as soon
as two patch sites have been found (`if (found >= 2) break;`). -/
def patch_scan (old_t new_t : Int) : List GenInstr → Nat → List GenInstr × Nat
  | [], found => ([], found)
  | i :: rest, found =>
      if found + (patch_one old_t new_t i).2 ≥ 2 then
        ((patch_one old_t new_t i).1 :: rest, found + (patch_one old_t new_t i).2)
      else
        ((patch_one old_t new_t i).1 ::
           (patch_scan old_t new_t rest (found + (patch_one old_t new_t i).2)).1,
         (patch_scan old_t new_t rest (found + (patch_one old_t new_t i).2)).2)

/-- Source `esp_fastpath_update_swap_threshold` (stack.c:1113-1165) on one
`ESP_ADJUST_ABSOLUTE` fragment: scan and patch the threshold compares, then
`ASSERT(found == 2, ...)` — a patch-site count other than two found by the
scan is a fatal internal-consistency failure, modelled as `none`. -/
def esp_fastpath_update_swap_threshold (old_t new_t : Int)
    (frag : List GenInstr) : Option (List GenInstr) :=
  if (patch_scan old_t new_t frag 0).2 = 2 then
    some (patch_scan old_t new_t frag 0).1
  else
    none

/-- Predicate for a patchable threshold compare: `cmp reg, imm` with the
immediate equal to the old threshold or its negation. -/
def is_threshold_cmp (old_t : Int) : GenInstr → Bool
  | GenInstr.cmp_ri _ imm => decide (imm = old_t ∨ imm = -old_t)
  | _ => false

/-- The decoded instruction stream of one generated `ESP_ADJUST_ABSOLUTE`
fragment (`generate_shared_esp_fastpath_helper`, stack.c:834-1086), at the
granularity the patcher's scan distinguishes: the two spilled-argument
stores, the optional flags save, the mov/sub computing the delta, the
positive and negated threshold compares each followed by a slowpath branch,
the alignment test, the two zero compares guarding the per-granule loops,
and the remaining non-compare instructions of the walk. -/
def absolute_fragment (eflags_live : Bool) (t : Int) : List GenInstr :=
  [GenInstr.other 0, GenInstr.other 1] ++
  (if eflags_live then [GenInstr.other 2] else []) ++
  [GenInstr.other 3, GenInstr.other 4,
   GenInstr.cmp_ri 3 t, GenInstr.other 5,
   GenInstr.cmp_ri 3 (-t), GenInstr.other 6,
   GenInstr.other 7, GenInstr.other 8,
   GenInstr.cmp_ri 3 0, GenInstr.other 9, GenInstr.other 10, GenInstr.other 11,
   GenInstr.cmp_ri 3 0, GenInstr.other 12,
   GenInstr.other 13, GenInstr.other 14, GenInstr.other 15]

/-- The region-bounds resolution chain as the spec's words describe it
(sections 4.2 and 6): heap-allocation index, then anonymous-mapping index,
then generic OS query, in that order, first success wins, failing only when
all three fail.  Stated for comparison with `get_stack_region_bounds`. -/
def spec_region_lookup_chain (env : RegionEnv) (addr : Int) : Option (Int × Int) :=
  match env.malloc_large_lookup addr with
  | some r => some r
  | none =>
      match env.mmap_anon_lookup addr with
      | some r => some r
      | none => env.dr_query_memory addr

/-- A resolver in which every address resolves to the mapping
`[0, 1000000)`: lookups on the old pointer succeed and candidate pointers
inside that range are false alarms. -/
def inbounds_env : RegionEnv :=
  { is_in_heap_region := fun _ => false
    malloc_large_lookup := fun _ => none
    mmap_anon_lookup := fun _ => some (0, 1000000)
    dr_query_memory := fun _ => none }

/-- A resolver in which every address resolves to the small mapping
`[0, 50)`: large absolute targets land outside it and classify as swaps. -/
def swap_env : RegionEnv :=
  { is_in_heap_region := fun _ => false
    malloc_large_lookup := fun _ => none
    mmap_anon_lookup := fun _ => some (0, 50)
    dr_query_memory := fun _ => none }

/-- A resolver in which nothing resolves at all. -/
def none_env : RegionEnv :=
  { is_in_heap_region := fun _ => false
    malloc_large_lookup := fun _ => none
    mmap_anon_lookup := fun _ => none
    dr_query_memory := fun _ => none }

/-- A resolver exhibiting the small-malloc case: the address is inside the
heap region, the large-malloc index fails, yet the generic OS query would
succeed. -/
def small_malloc_env : RegionEnv :=
  { is_in_heap_region := fun _ => true
    malloc_large_lookup := fun _ => none
    mmap_anon_lookup := fun _ => none
    dr_query_memory := fun _ => some (0, 4096) }

/-- A fresh process state with threshold 4096 (one page above the floor) and
all counters at zero. -/
def example_state : SwapState :=
  { stack_swap_threshold := 4096
    num_non_swaps := 0
    stack_swap_triggers := 0
    stack_swaps := 0
    region_lookups := 0
    patcher_invocations := 0 }

/-- A concrete machine at `esp = 100` with fully unaddressable shadow. -/
def example_machine : Machine :=
  { esp := 100
    shadow := fun _ => SVal.unaddressable
    mem := fun _ => 0
    swap := example_state
    adjust_esp_executions := 0
    warnings := 0 }

/-- A concrete machine at `esp = 10` (inside `swap_env`'s small mapping). -/
def swap_machine : Machine :=
  { esp := 10
    shadow := fun _ => SVal.unaddressable
    mem := fun _ => 0
    swap := example_state
    adjust_esp_executions := 0
    warnings := 0 }

/-- A fully defined concrete shadow, for the push-addressable scenario. -/
def defined_shadow : Shadow := fun _ => SVal.defined

/-! Helper lemmas. -/

theorem shadow_set_range_outside (lo hi : Int) (v : SVal) (s : Shadow) (a : Int)
    (h : a < lo ∨ hi ≤ a) : shadow_set_range lo hi v s a = s a := by
  unfold shadow_set_range
  split
  · exfalso
    rcases h with h | h <;> omega
  · rfl

theorem esp_adjust_tail_swap (sp : Bool) (d e : Int) (m : Machine) :
    (esp_adjust_tail sp d e m).swap = m.swap := by
  unfold esp_adjust_tail
  split
  · split
    · rfl
    · split <;> rfl
  · rfl

theorem esp_adjust_tail_esp (sp : Bool) (d e : Int) (m : Machine) :
    (esp_adjust_tail sp d e m).esp = m.esp := by
  unfold esp_adjust_tail
  split
  · split
    · rfl
    · split <;> rfl
  · rfl

theorem esp_adjust_tail_warnings (sp : Bool) (d e : Int) (m : Machine) :
    (esp_adjust_tail sp d e m).warnings = m.warnings := by
  unfold esp_adjust_tail
  split
  · split
    · rfl
    · split <;> rfl
  · rfl

theorem esp_adjust_tail_mem_shadowed (d e : Int) (m : Machine) :
    (esp_adjust_tail true d e m).mem = m.mem := by
  unfold esp_adjust_tail
  split
  · rfl
  · rfl

theorem esp_adjust_tail_shadow_shadowed (d e : Int) (m : Machine) :
    (esp_adjust_tail true d e m).shadow =
      (if d > 0 then shadow_set_range e (e + d) SVal.unaddressable m.shadow
       else if d < 0 then shadow_set_range (e + d) e SVal.undefined m.shadow
       else m.shadow) := by
  rcases lt_trichotomy d 0 with hd | hd | hd
  · rw [if_neg (by omega), if_pos hd]
    unfold esp_adjust_tail
    rw [if_pos (by omega)]
    simp only [if_pos, Bool.if_true_left]
    rw [if_neg (by omega : ¬ d > 0), if_neg (by omega : ¬ d > 0), if_neg (by omega : ¬ d > 0)]
  · subst hd
    simp [esp_adjust_tail]
  · rw [if_pos hd]
    unfold esp_adjust_tail
    rw [if_pos (by omega)]
    simp only [if_pos hd]
    rfl

theorem esp_adjust_tail_shadow_light (d e : Int) (m : Machine) :
    (esp_adjust_tail false d e m).shadow = m.shadow := by
  unfold esp_adjust_tail
  split
  · split
    · simp_all
    · split <;> rfl
  · rfl

theorem esp_adjust_tail_mem_light (d e : Int) (m : Machine) :
    (esp_adjust_tail false d e m).mem =
      (if d < 0 then memset_zero (e + d) (-d) m.mem else m.mem) := by
  unfold esp_adjust_tail
  split
  · split
    · simp_all
    · split
      · rfl
      · rfl
  · next hd =>
      rw [if_neg (show ¬ d < 0 by omega)]

theorem esp_adjust_base_abs (e : Int) : esp_adjust_base EspAdjust.absolute e = e := rfl

theorem esp_adjust_base_neg (e : Int) : esp_adjust_base EspAdjust.negative e = e := rfl

theorem esp_adjust_base_pos (e : Int) : esp_adjust_base EspAdjust.positive e = e := rfl

theorem esp_adjust_base_ret (e : Int) : esp_adjust_base EspAdjust.ret_immed e = e + 4 := rfl

theorem esp_adjust_base_and (e : Int) : esp_adjust_base EspAdjust.and_mask e = e := rfl

theorem esp_adjust_base_inv (e : Int) : esp_adjust_base EspAdjust.invalid e = e := rfl

theorem check_stack_swap_fst (env : RegionEnv) (st : SwapState) (cur_xsp new_xsp : Int) :
    (check_stack_swap env st cur_xsp new_xsp).1 = is_stack_swap env cur_xsp new_xsp := by
  unfold check_stack_swap is_stack_swap
  rcases hg : get_stack_region_bounds env cur_xsp with _ | bs
  · rfl
  · simp only
    by_cases hin : bs.1 ≤ new_xsp ∧ new_xsp < bs.1 + bs.2
    · rw [if_pos hin]
      split <;> simp [hin]
    · rw [if_neg hin]
      simp [hin]

theorem check_stack_swap_swaps (env : RegionEnv) (st : SwapState) (cur_xsp new_xsp : Int)
    (h : is_stack_swap env cur_xsp new_xsp = true) :
    (check_stack_swap env st cur_xsp new_xsp).2.stack_swaps = st.stack_swaps + 1 := by
  unfold check_stack_swap
  unfold is_stack_swap at h
  rcases hg : get_stack_region_bounds env cur_xsp with _ | bs
  · rfl
  · rw [hg] at h
    simp only [Bool.not_eq_true'] at h
    simp only
    rw [if_neg (by simpa using h)]

theorem check_stack_swap_in_bounds (env : RegionEnv) (st : SwapState)
    (cur_xsp new_xsp b : Int) (s : Int)
    (hg : get_stack_region_bounds env cur_xsp = some (b, s))
    (h1 : b ≤ new_xsp) (h2 : new_xsp < b + s) :
    check_stack_swap env st cur_xsp new_xsp = (false, false_alarm_transition st) := by
  unfold check_stack_swap false_alarm_transition
  rw [hg]
  simp only
  rw [if_pos ⟨h1, h2⟩]
  unfold update_stack_swap_threshold
  split <;> rfl

theorem iterate_false_alarm (env : RegionEnv) (cur_xsp new_xsp b : Int) (s : Int)
    (hg : get_stack_region_bounds env cur_xsp = some (b, s))
    (h1 : b ≤ new_xsp) (h2 : new_xsp < b + s) (st0 : SwapState)
    (h0 : st0.num_non_swaps = 0) :
    ∀ k : Nat, k ≤ 33 →
      (false_alarm_step env cur_xsp new_xsp)^[k] st0 =
        { st0 with num_non_swaps := (k : Int),
                   stack_swap_triggers := st0.stack_swap_triggers + k,
                   region_lookups := st0.region_lookups + k } := by
  obtain ⟨t0, n0, g0, w0, l0, p0⟩ := st0
  simp only at h0
  subst h0
  intro k
  induction k with
  | zero =>
      intro _
      rw [Function.iterate_zero_apply]
      dsimp only
      congr 1
  | succ n ih =>
      intro hk
      rw [Function.iterate_succ_apply', ih (by omega)]
      unfold false_alarm_step
      rw [check_stack_swap_in_bounds env _ cur_xsp new_xsp b s hg h1 h2]
      unfold false_alarm_transition
      rw [if_neg (show ¬((n : Int) > MAX_NUMBER_NON_SWAPS) from by
        unfold MAX_NUMBER_NON_SWAPS; omega)]
      dsimp only
      congr 1

theorem handle_esp_adjust_eq (sp : Bool) (env : RegionEnv) (type : EspAdjust)
    (val : Int) (m : Machine) (hns : ¬ confirmed_swap env type val m) :
    handle_esp_adjust sp env type val m =
      esp_adjust_tail sp (esp_adjust_delta type val m.esp) (esp_adjust_base type m.esp)
        { m with
          adjust_esp_executions := m.adjust_esp_executions + 1,
          swap :=
            (if swap_checked env type val m then
               (check_stack_swap env m.swap m.esp
                 (m.esp + esp_adjust_delta type val m.esp)).2
             else m.swap),
          warnings :=
            m.warnings +
              (if type = EspAdjust.absolute ∨ type = EspAdjust.and_mask then 0
               else if esp_adjust_delta type val m.esp > m.swap.stack_swap_threshold ∨
                       esp_adjust_delta type val m.esp < -m.swap.stack_swap_threshold
                    then 1 else 0) } := by
  cases type
  case absolute =>
    simp only [confirmed_swap, swap_checked, esp_adjust_delta] at hns
    simp only [handle_esp_adjust, esp_adjust_delta, esp_adjust_base_abs, swap_checked]
    rw [if_pos (Or.inl trivial), show m.esp + (val - m.esp) = val by ring]
    by_cases hbig : val - m.esp > m.swap.stack_swap_threshold ∨
        val - m.esp < -m.swap.stack_swap_threshold
    · have hsc : (True ∨ EspAdjust.absolute = EspAdjust.and_mask) ∧
          (val - m.esp > m.swap.stack_swap_threshold ∨
           val - m.esp < -m.swap.stack_swap_threshold) := ⟨Or.inl trivial, hbig⟩
      rw [if_pos hbig, if_pos hsc]
      have hsw : is_stack_swap env m.esp val = false := by
        rcases hB : is_stack_swap env m.esp val
        · rfl
        · exfalso
          apply hns
          refine ⟨⟨Or.inl trivial, hbig⟩, ?_⟩
          rw [show m.esp + (val - m.esp) = val by ring]
          exact hB
      rw [check_stack_swap_fst, hsw, if_neg Bool.false_ne_true]
      rfl
    · rw [if_neg hbig, if_neg (fun h => hbig h.2)]
      rfl
  case and_mask =>
    simp only [confirmed_swap, swap_checked, esp_adjust_delta] at hns
    simp only [handle_esp_adjust, esp_adjust_delta, esp_adjust_base_and, swap_checked]
    rw [if_pos (Or.inr trivial),
        show m.esp + (Int.land m.esp val - m.esp) = Int.land m.esp val by ring]
    by_cases hbig : Int.land m.esp val - m.esp > m.swap.stack_swap_threshold ∨
        Int.land m.esp val - m.esp < -m.swap.stack_swap_threshold
    · have hsc : (EspAdjust.and_mask = EspAdjust.absolute ∨ True) ∧
          (Int.land m.esp val - m.esp > m.swap.stack_swap_threshold ∨
           Int.land m.esp val - m.esp < -m.swap.stack_swap_threshold) := ⟨Or.inr trivial, hbig⟩
      rw [if_pos hbig, if_pos hsc]
      have hsw : is_stack_swap env m.esp (Int.land m.esp val) = false := by
        rcases hB : is_stack_swap env m.esp (Int.land m.esp val)
        · rfl
        · exfalso
          apply hns
          refine ⟨⟨Or.inr trivial, hbig⟩, ?_⟩
          rw [show m.esp + (Int.land m.esp val - m.esp) = Int.land m.esp val by ring]
          exact hB
      rw [check_stack_swap_fst, hsw, if_neg Bool.false_ne_true]
      rfl
    · rw [if_neg hbig, if_neg (fun h => hbig h.2)]
      rfl
  case negative =>
    simp only [handle_esp_adjust, handle_esp_relative, esp_adjust_delta, esp_adjust_base_neg,
      swap_checked]
    rw [if_pos trivial, if_neg (show EspAdjust.negative ≠ EspAdjust.ret_immed by decide),
        if_neg (show ¬(EspAdjust.negative = EspAdjust.absolute ∨
          EspAdjust.negative = EspAdjust.and_mask) by decide),
        if_neg (show ¬((EspAdjust.negative = EspAdjust.absolute ∨
          EspAdjust.negative = EspAdjust.and_mask) ∧
          (-val > m.swap.stack_swap_threshold ∨ -val < -m.swap.stack_swap_threshold))
          from fun h => by rcases h.1 with h1 | h1 <;> cases h1)]
    by_cases hbw : -val > m.swap.stack_swap_threshold ∨ -val < -m.swap.stack_swap_threshold
    · rw [if_pos hbw, if_pos hbw]
      try rfl
    · rw [if_neg hbw, if_neg hbw]
      try rfl
  case positive =>
    simp only [handle_esp_adjust, handle_esp_relative, esp_adjust_delta, esp_adjust_base_pos,
      swap_checked]
    rw [if_neg (show EspAdjust.positive ≠ EspAdjust.negative by decide),
        if_neg (show EspAdjust.positive ≠ EspAdjust.ret_immed by decide),
        if_neg (show ¬(EspAdjust.positive = EspAdjust.absolute ∨
          EspAdjust.positive = EspAdjust.and_mask) by decide),
        if_neg (show ¬((EspAdjust.positive = EspAdjust.absolute ∨
          EspAdjust.positive = EspAdjust.and_mask) ∧
          (val > m.swap.stack_swap_threshold ∨ val < -m.swap.stack_swap_threshold))
          from fun h => by rcases h.1 with h1 | h1 <;> cases h1)]
    by_cases hbw : val > m.swap.stack_swap_threshold ∨ val < -m.swap.stack_swap_threshold
    · rw [if_pos hbw, if_pos hbw]
      try rfl
    · rw [if_neg hbw, if_neg hbw]
      try rfl
  case ret_immed =>
    simp only [handle_esp_adjust, handle_esp_relative, esp_adjust_delta, esp_adjust_base_ret,
      swap_checked]
    rw [if_pos trivial, if_neg (show EspAdjust.ret_immed ≠ EspAdjust.negative by decide),
        if_neg (show ¬(EspAdjust.ret_immed = EspAdjust.absolute ∨
          EspAdjust.ret_immed = EspAdjust.and_mask) by decide),
        if_neg (show ¬((EspAdjust.ret_immed = EspAdjust.absolute ∨
          EspAdjust.ret_immed = EspAdjust.and_mask) ∧
          (val > m.swap.stack_swap_threshold ∨ val < -m.swap.stack_swap_threshold))
          from fun h => by rcases h.1 with h1 | h1 <;> cases h1)]
    by_cases hbw : val > m.swap.stack_swap_threshold ∨ val < -m.swap.stack_swap_threshold
    · rw [if_pos hbw, if_pos hbw]
      try rfl
    · rw [if_neg hbw, if_neg hbw]
      try rfl
  case invalid =>
    simp only [handle_esp_adjust, handle_esp_relative, esp_adjust_delta, esp_adjust_base_inv,
      swap_checked]
    rw [if_neg (show EspAdjust.invalid ≠ EspAdjust.negative by decide),
        if_neg (show EspAdjust.invalid ≠ EspAdjust.ret_immed by decide),
        if_neg (show ¬(EspAdjust.invalid = EspAdjust.absolute ∨
          EspAdjust.invalid = EspAdjust.and_mask) by decide),
        if_neg (show ¬((EspAdjust.invalid = EspAdjust.absolute ∨
          EspAdjust.invalid = EspAdjust.and_mask) ∧
          (val > m.swap.stack_swap_threshold ∨ val < -m.swap.stack_swap_threshold))
          from fun h => by rcases h.1 with h1 | h1 <;> cases h1)]
    by_cases hbw : val > m.swap.stack_swap_threshold ∨ val < -m.swap.stack_swap_threshold
    · rw [if_pos hbw, if_pos hbw]
      try rfl
    · rw [if_neg hbw, if_neg hbw]
      try rfl

theorem handle_swap_no_mutation (sp : Bool) (env : RegionEnv) (type : EspAdjust)
    (val : Int) (m : Machine) (h : confirmed_swap env type val m) :
    (handle_esp_adjust sp env type val m).shadow = m.shadow ∧
    (handle_esp_adjust sp env type val m).mem = m.mem ∧
    (handle_esp_adjust sp env type val m).esp = m.esp ∧
    (handle_esp_adjust sp env type val m).swap.stack_swaps = m.swap.stack_swaps + 1 := by
  obtain ⟨⟨hty, hbig⟩, hsw⟩ := h
  rcases hty with hty | hty <;> subst hty
  · simp only [esp_adjust_delta] at hbig hsw
    rw [show m.esp + (val - m.esp) = val by ring] at hsw
    simp only [handle_esp_adjust]
    rw [if_pos hbig, check_stack_swap_fst, hsw, if_pos rfl]
    refine ⟨rfl, rfl, rfl, ?_⟩
    dsimp only
    rw [check_stack_swap_swaps env _ m.esp val hsw]
  · simp only [esp_adjust_delta] at hbig hsw
    rw [show m.esp + (Int.land m.esp val - m.esp) = Int.land m.esp val by ring] at hsw
    simp only [handle_esp_adjust]
    rw [if_pos hbig, check_stack_swap_fst, hsw, if_pos rfl]
    refine ⟨rfl, rfl, rfl, ?_⟩
    dsimp only
    rw [check_stack_swap_swaps env _ m.esp (Int.land m.esp val) hsw]

theorem iterate_false_alarm_bump (env : RegionEnv) (cur_xsp new_xsp b : Int) (s : Int)
    (hg : get_stack_region_bounds env cur_xsp = some (b, s))
    (h1 : b ≤ new_xsp) (h2 : new_xsp < b + s) (st0 : SwapState)
    (h0 : st0.num_non_swaps = 0) :
    (false_alarm_step env cur_xsp new_xsp)^[34] st0 =
      { st0 with num_non_swaps := 0,
                 stack_swap_threshold := st0.stack_swap_threshold + PAGE_SIZE,
                 stack_swap_triggers := st0.stack_swap_triggers + 34,
                 region_lookups := st0.region_lookups + 34,
                 patcher_invocations := st0.patcher_invocations + 1 } := by
  obtain ⟨t0, n0, g0, w0, l0, p0⟩ := st0
  simp only at h0
  subst h0
  rw [show (34 : Nat) = 33 + 1 from rfl, Function.iterate_succ_apply',
      iterate_false_alarm env cur_xsp new_xsp b s hg h1 h2 _ rfl 33 (le_refl 33)]
  unfold false_alarm_step
  rw [check_stack_swap_in_bounds env _ cur_xsp new_xsp b s hg h1 h2]
  unfold false_alarm_transition
  rw [if_pos (show ((33 : Nat) : Int) > MAX_NUMBER_NON_SWAPS from by
    unfold MAX_NUMBER_NON_SWAPS; omega)]

theorem patch_one_snd (o n : Int) (i : GenInstr) :
    (patch_one o n i).2 = if is_threshold_cmp o i then 1 else 0 := by
  cases i with
  | cmp_ri r imm =>
      simp only [patch_one, is_threshold_cmp]
      by_cases h1 : imm = o
      · simp [h1]
      · by_cases h2 : imm = -o
        · subst h2
          by_cases h3 : -o = o
          · simp [h3]
          · simp [h1, h3]
        · simp [h1, h2]
  | other t => simp [patch_one, is_threshold_cmp]

theorem patch_scan_count (o n : Int) :
    ∀ (frag : List GenInstr) (found : Nat), found ≤ 1 →
      (patch_scan o n frag found).2 =
        min (found + frag.countP (is_threshold_cmp o)) 2 := by
  intro frag
  induction frag with
  | nil =>
      intro found hf
      simp only [patch_scan, List.countP_nil]
      omega
  | cons i rest ih =>
      intro found hf
      rw [patch_scan, List.countP_cons]
      rcases hb : is_threshold_cmp o i
      · have hp : (patch_one o n i).2 = 0 := by rw [patch_one_snd, hb]; rfl
        rw [hp]
        simp only [Nat.add_zero]
        rw [if_neg (show ¬ found ≥ 2 by omega)]
        dsimp only
        rw [ih found hf]
        simp
      · have hp : (patch_one o n i).2 = 1 := by rw [patch_one_snd, hb]; rfl
        rw [hp]
        have hc : (if (true : Bool) then 1 else 0) = 1 := rfl
        by_cases h2 : found + 1 ≥ 2
        · rw [if_pos h2]
          dsimp only
          rw [hc]
          omega
        · rw [if_neg h2]
          dsimp only
          rw [ih (found + 1) (by omega), hc]
          omega

/-! Claim theorems. -/

set_option maxRecDepth 8000 in
/-- Claim C1, counterexample: starting from a fresh state (counter 0,
threshold 4096) and a resolver for which every classification is a false
alarm, the 33rd consecutive false alarm leaves the threshold at 4096, the
counter at 33, and the Runtime Patcher never invoked — contradicting the
claim that the 33rd false alarm raises the threshold by one page, because
the source compares the counter before incrementing it
(`num_non_swaps++ > MAX_NUMBER_NON_SWAPS`). -/
theorem c1_counterexample :
    ((false_alarm_step inbounds_env 100 200)^[33] example_state).stack_swap_threshold =
        4096 ∧
    ((false_alarm_step inbounds_env 100 200)^[33] example_state).num_non_swaps = 33 ∧
    ((false_alarm_step inbounds_env 100 200)^[33] example_state).patcher_invocations =
        0 := by
  decide

/-- Claim C1 (amended): each false alarm at a counter value of at most 32
increments the NonSwapCounter and leaves the threshold untouched; starting
from counter 0, 33 consecutive false alarms at an unchanged threshold leave
the counter at 33, and the 34th raises the threshold by exactly one page,
resets the counter to 0, and invokes the threshold update (and hence the
Runtime Patcher) exactly once. -/
theorem c1_theorem (env : RegionEnv) (cur_xsp new_xsp b : Int) (s : Int)
    (st0 : SwapState)
    (hg : get_stack_region_bounds env cur_xsp = some (b, s))
    (h1 : b ≤ new_xsp) (h2 : new_xsp < b + s) (h0 : st0.num_non_swaps = 0) :
    (((false_alarm_step env cur_xsp new_xsp)^[33] st0).stack_swap_threshold =
        st0.stack_swap_threshold ∧
      ((false_alarm_step env cur_xsp new_xsp)^[33] st0).patcher_invocations =
        st0.patcher_invocations ∧
      ((false_alarm_step env cur_xsp new_xsp)^[33] st0).num_non_swaps = 33) ∧
    (((false_alarm_step env cur_xsp new_xsp)^[34] st0).stack_swap_threshold =
        st0.stack_swap_threshold + PAGE_SIZE ∧
      ((false_alarm_step env cur_xsp new_xsp)^[34] st0).num_non_swaps = 0 ∧
      ((false_alarm_step env cur_xsp new_xsp)^[34] st0).patcher_invocations =
        st0.patcher_invocations + 1) ∧
    (∀ st : SwapState, st.num_non_swaps ≤ MAX_NUMBER_NON_SWAPS →
      (false_alarm_step env cur_xsp new_xsp st).num_non_swaps =
        st.num_non_swaps + 1 ∧
      (false_alarm_step env cur_xsp new_xsp st).stack_swap_threshold =
        st.stack_swap_threshold ∧
      (false_alarm_step env cur_xsp new_xsp st).patcher_invocations =
        st.patcher_invocations) := by
  refine ⟨?_, ?_, ?_⟩
  · rw [iterate_false_alarm env cur_xsp new_xsp b s hg h1 h2 st0 h0 33 (le_refl 33)]
    exact ⟨rfl, rfl, rfl⟩
  · rw [iterate_false_alarm_bump env cur_xsp new_xsp b s hg h1 h2 st0 h0]
    exact ⟨rfl, rfl, rfl⟩
  · intro st hle
    unfold false_alarm_step
    rw [check_stack_swap_in_bounds env st cur_xsp new_xsp b s hg h1 h2]
    unfold false_alarm_transition
    rw [if_neg (show ¬ st.num_non_swaps > MAX_NUMBER_NON_SWAPS by omega)]
    exact ⟨rfl, rfl, rfl⟩

/-- Witness for C1's amended theorem at a concrete resolver and fresh state:
the 34th consecutive false alarm bumps the threshold by one page. -/
theorem c1_witness :
    get_stack_region_bounds inbounds_env 100 = some (0, 1000000) ∧
    ((false_alarm_step inbounds_env 100 200)^[34] example_state).stack_swap_threshold =
      example_state.stack_swap_threshold + PAGE_SIZE :=
  ⟨by decide,
   (c1_theorem inbounds_env 100 200 0 1000000 example_state (by decide) (by decide)
     (by decide) rfl).2.1.1⟩

/-- Claim C2: the swap classifier reports "not a swap" exactly when region
bounds for the old pointer resolve and the candidate pointer lies within
`[base, base + size)`; when the candidate lies outside resolved bounds, or no
bounds resolve, it reports a genuine swap. -/
theorem c2_theorem (env : RegionEnv) (st : SwapState) (cur_xsp new_xsp : Int) :
    (check_stack_swap env st cur_xsp new_xsp).1 = false ↔
      ∃ b s : Int, get_stack_region_bounds env cur_xsp = some (b, s) ∧
        b ≤ new_xsp ∧ new_xsp < b + s := by
  rw [check_stack_swap_fst]
  unfold is_stack_swap
  rcases hg : get_stack_region_bounds env cur_xsp with _ | bs
  · simp [hg]
  · obtain ⟨b0, s0⟩ := bs
    simp only [hg, Bool.not_eq_false', decide_eq_true_eq, Option.some.injEq,
      Prod.mk.injEq]
    constructor
    · intro hx
      exact ⟨b0, s0, ⟨rfl, rfl⟩, hx⟩
    · rintro ⟨b, s, ⟨hb, hs⟩, hx⟩
      subst hb
      subst hs
      exact hx

/-- Claim C3: for every confirmed stack swap the adjustment handler returns
without mutating shadow state or application memory (and without touching the
stack pointer), and the swap counter increments exactly once. -/
theorem c3_theorem (sp : Bool) (env : RegionEnv) (type : EspAdjust) (val : Int)
    (m : Machine) (h : confirmed_swap env type val m) :
    (handle_esp_adjust sp env type val m).shadow = m.shadow ∧
    (handle_esp_adjust sp env type val m).mem = m.mem ∧
    (handle_esp_adjust sp env type val m).esp = m.esp ∧
    (handle_esp_adjust sp env type val m).swap.stack_swaps =
      m.swap.stack_swaps + 1 :=
  handle_swap_no_mutation sp env type val m h

/-- Witness for C3 at a concrete confirmed swap: absolute target 20000 from
`esp = 10` inside the small mapping `[0, 50)`. -/
theorem c3_witness :
    confirmed_swap swap_env EspAdjust.absolute 20000 swap_machine ∧
    (handle_esp_adjust true swap_env EspAdjust.absolute 20000 swap_machine).shadow =
      swap_machine.shadow ∧
    (handle_esp_adjust true swap_env EspAdjust.absolute 20000 swap_machine).swap.stack_swaps =
      swap_machine.swap.stack_swaps + 1 := by
  have h := c3_theorem true swap_env EspAdjust.absolute 20000 swap_machine (by decide)
  exact ⟨by decide, h.1, h.2.2.2⟩

/-- Claim C4, counterexample: in full-tracking mode a growth adjustment
(`sub esp, 8` at `esp = 100`) changes the shadow byte at the new top of
stack (address 92, which becomes Undefined), so the update does not exclude
the granule at the new top-of-stack boundary on growth. -/
theorem c4_counterexample :
    (handle_esp_adjust true inbounds_env EspAdjust.negative 8 example_machine).shadow
        (example_machine.esp +
          esp_adjust_delta EspAdjust.negative 8 example_machine.esp) ≠
      example_machine.shadow
        (example_machine.esp +
          esp_adjust_delta EspAdjust.negative 8 example_machine.esp) := by
  decide

/-- Claim C4 (amended): in full-tracking mode, for every adjustment handled
as an ordinary (non-swap) event, growth marks exactly the newly claimed
half-open range `[new, old)` Undefined and shrink marks exactly the released
range `[old, new)` Unaddressable; the mutation touches only bytes strictly
between the pre- and post-adjustment pointers; the half-open range excludes
the granule at its upper end — the new top-of-stack on shrink, the old
top-of-stack on growth (on growth the new top-of-stack granule itself is
marked Undefined) — and application memory is untouched. -/
theorem c4_theorem (env : RegionEnv) (type : EspAdjust) (val : Int) (m : Machine)
    (hns : ¬ confirmed_swap env type val m) :
    (esp_adjust_delta type val m.esp > 0 →
      (handle_esp_adjust true env type val m).shadow =
        shadow_set_range (esp_adjust_base type m.esp)
          (esp_adjust_base type m.esp + esp_adjust_delta type val m.esp)
          SVal.unaddressable m.shadow ∧
      (handle_esp_adjust true env type val m).shadow
          (esp_adjust_base type m.esp + esp_adjust_delta type val m.esp) =
        m.shadow (esp_adjust_base type m.esp + esp_adjust_delta type val m.esp)) ∧
    (esp_adjust_delta type val m.esp < 0 →
      (handle_esp_adjust true env type val m).shadow =
        shadow_set_range
          (esp_adjust_base type m.esp + esp_adjust_delta type val m.esp)
          (esp_adjust_base type m.esp) SVal.undefined m.shadow ∧
      (handle_esp_adjust true env type val m).shadow (esp_adjust_base type m.esp) =
        m.shadow (esp_adjust_base type m.esp)) ∧
    (∀ a : Int,
      a < esp_adjust_base type m.esp + min (esp_adjust_delta type val m.esp) 0 ∨
      esp_adjust_base type m.esp + max (esp_adjust_delta type val m.esp) 0 ≤ a →
      (handle_esp_adjust true env type val m).shadow a = m.shadow a) ∧
    (handle_esp_adjust true env type val m).mem = m.mem := by
  rw [handle_esp_adjust_eq true env type val m hns, esp_adjust_tail_shadow_shadowed,
      esp_adjust_tail_mem_shadowed]
  dsimp only
  refine ⟨?_, ?_, ?_, rfl⟩
  · intro hpos
    rw [if_pos hpos]
    exact ⟨rfl, shadow_set_range_outside _ _ _ _ _ (Or.inr (le_refl _))⟩
  · intro hneg
    rw [if_neg (show ¬ esp_adjust_delta type val m.esp > 0 by omega), if_pos hneg]
    exact ⟨rfl, shadow_set_range_outside _ _ _ _ _ (Or.inr (le_refl _))⟩
  · intro a ha
    rcases lt_trichotomy (esp_adjust_delta type val m.esp) 0 with hd | hd | hd
    · rw [if_neg (show ¬ esp_adjust_delta type val m.esp > 0 by omega), if_pos hd]
      apply shadow_set_range_outside
      rcases ha with ha | ha
      · left; omega
      · right; omega
    · rw [if_neg (show ¬ esp_adjust_delta type val m.esp > 0 by omega),
          if_neg (show ¬ esp_adjust_delta type val m.esp < 0 by omega)]
    · rw [if_pos hd]
      apply shadow_set_range_outside
      rcases ha with ha | ha
      · left; omega
      · right; omega

/-- Witness for C4's amended theorem at the concrete growth adjustment
`sub esp, 8` from `esp = 100`: the range `[92, 100)` becomes Undefined. -/
theorem c4_witness :
    ¬ confirmed_swap inbounds_env EspAdjust.negative 8 example_machine ∧
    ((handle_esp_adjust true inbounds_env EspAdjust.negative 8 example_machine).shadow =
        shadow_set_range
          (esp_adjust_base EspAdjust.negative example_machine.esp +
            esp_adjust_delta EspAdjust.negative 8 example_machine.esp)
          (esp_adjust_base EspAdjust.negative example_machine.esp)
          SVal.undefined example_machine.shadow ∧
      (handle_esp_adjust true inbounds_env EspAdjust.negative 8
            example_machine).shadow
          (esp_adjust_base EspAdjust.negative example_machine.esp) =
        example_machine.shadow
          (esp_adjust_base EspAdjust.negative example_machine.esp)) :=
  ⟨by decide,
   (c4_theorem inbounds_env EspAdjust.negative 8 example_machine (by decide)).2.1
     (by decide)⟩

/-- Claim C5: for every adjustment event whose delta magnitude is at most the
current threshold, no region lookup or swap classification occurs (the whole
global swap state is untouched), and the local update — shadow transition in
full-tracking mode, zero-fill of newly allocated memory in lightweight mode —
is applied consistent with the direction of the delta. -/
theorem c5_theorem (sp : Bool) (env : RegionEnv) (type : EspAdjust) (val : Int)
    (m : Machine)
    (hsmall : ¬(esp_adjust_delta type val m.esp > m.swap.stack_swap_threshold ∨
                esp_adjust_delta type val m.esp < -m.swap.stack_swap_threshold)) :
    (handle_esp_adjust sp env type val m).swap = m.swap ∧
    (sp = true → (handle_esp_adjust sp env type val m).mem = m.mem ∧
      (handle_esp_adjust sp env type val m).shadow =
        (if esp_adjust_delta type val m.esp > 0 then
           shadow_set_range (esp_adjust_base type m.esp)
             (esp_adjust_base type m.esp + esp_adjust_delta type val m.esp)
             SVal.unaddressable m.shadow
         else if esp_adjust_delta type val m.esp < 0 then
           shadow_set_range
             (esp_adjust_base type m.esp + esp_adjust_delta type val m.esp)
             (esp_adjust_base type m.esp) SVal.undefined m.shadow
         else m.shadow)) ∧
    (sp = false → (handle_esp_adjust sp env type val m).shadow = m.shadow ∧
      (handle_esp_adjust sp env type val m).mem =
        (if esp_adjust_delta type val m.esp < 0 then
           memset_zero
             (esp_adjust_base type m.esp + esp_adjust_delta type val m.esp)
             (-(esp_adjust_delta type val m.esp)) m.mem
         else m.mem)) := by
  have hns : ¬ confirmed_swap env type val m := fun hc => hsmall hc.1.2
  have heq := handle_esp_adjust_eq sp env type val m hns
  refine ⟨?_, ?_, ?_⟩
  · rw [heq, esp_adjust_tail_swap]
    dsimp only
    rw [if_neg (fun hc => hsmall hc.2)]
  · rintro rfl
    rw [heq] at *
    exact ⟨by rw [esp_adjust_tail_mem_shadowed],
           by rw [esp_adjust_tail_shadow_shadowed]⟩
  · rintro rfl
    rw [heq] at *
    exact ⟨by rw [esp_adjust_tail_shadow_light],
           by rw [esp_adjust_tail_mem_light]⟩

/-- Witness for C5 at a concrete small relative adjustment (delta 4 at
threshold 4096): the global swap state is untouched. -/
theorem c5_witness :
    ¬(esp_adjust_delta EspAdjust.positive 4 example_machine.esp >
        example_machine.swap.stack_swap_threshold ∨
      esp_adjust_delta EspAdjust.positive 4 example_machine.esp <
        -example_machine.swap.stack_swap_threshold) ∧
    (handle_esp_adjust true inbounds_env EspAdjust.positive 4 example_machine).swap =
      example_machine.swap :=
  ⟨by decide,
   (c5_theorem true inbounds_env EspAdjust.positive 4 example_machine (by decide)).1⟩

/-- Claim C6, counterexample: for an address inside the heap region whose
large-malloc lookup fails while the generic OS query would succeed,
`get_stack_region_bounds` fails even though the spec's first-success chain
over all three lookups succeeds — the source never falls through from a
failed heap lookup to the other indices. -/
theorem c6_counterexample :
    get_stack_region_bounds small_malloc_env 100 = none ∧
    spec_region_lookup_chain small_malloc_env 100 = some (0, 4096) :=
  ⟨rfl, rfl⟩

/-- Claim C6 (amended): region-bounds resolution dispatches on heap-region
membership: for an address in the heap region only the heap-allocation index
is consulted and its failure is final; otherwise the anonymous-mapping index
is tried first and then the generic OS query, first success winning. -/
theorem c6_theorem (env : RegionEnv) (addr : Int) (r : Int × Int) :
    get_stack_region_bounds env addr = some r ↔
      (env.is_in_heap_region addr = true ∧
        env.malloc_large_lookup addr = some r) ∨
      (env.is_in_heap_region addr = false ∧
        env.mmap_anon_lookup addr = some r) ∨
      (env.is_in_heap_region addr = false ∧ env.mmap_anon_lookup addr = none ∧
        env.dr_query_memory addr = some r) := by
  unfold get_stack_region_bounds
  rcases hh : env.is_in_heap_region addr
  · rcases hm : env.mmap_anon_lookup addr with _ | r2 <;> simp [hh, hm]
  · simp [hh]

/-- Claim C7: whenever a stack region's size becomes known and is smaller
than the current threshold (itself at or above the floor), the threshold
drops to the fixed floor `MIN_SWAP_THRESHOLD` — never to the region's own
size — and otherwise the state is left entirely unchanged. -/
theorem c7_theorem (st : SwapState) (stack_size : Int)
    (hmin : MIN_SWAP_THRESHOLD ≤ st.stack_swap_threshold) :
    (check_stack_size_vs_threshold st stack_size).stack_swap_threshold =
      (if stack_size < st.stack_swap_threshold then MIN_SWAP_THRESHOLD
       else st.stack_swap_threshold) ∧
    (¬ stack_size < st.stack_swap_threshold →
      check_stack_size_vs_threshold st stack_size = st) := by
  simp only [check_stack_size_vs_threshold]
  rw [if_neg (lt_irrefl MIN_SWAP_THRESHOLD)]
  constructor
  · by_cases hlt : stack_size < st.stack_swap_threshold
    · rw [if_pos hlt, if_pos hlt]
      by_cases h2 : MIN_SWAP_THRESHOLD < st.stack_swap_threshold
      · rw [if_pos h2]
        rfl
      · rw [if_neg h2]
        omega
    · rw [if_neg hlt, if_neg hlt]
  · intro hge
    rw [if_neg hge]

/-- Witness for C7 at the scenario of spec section 8: a region of size 1024
at threshold 4096 lowers the threshold to 2048, not to 1024. -/
theorem c7_witness :
    MIN_SWAP_THRESHOLD ≤ example_state.stack_swap_threshold ∧
    (check_stack_size_vs_threshold example_state 1024).stack_swap_threshold =
      (if (1024 : Int) < example_state.stack_swap_threshold then MIN_SWAP_THRESHOLD
       else example_state.stack_swap_threshold) :=
  ⟨by decide, (c7_theorem example_state 1024 (by decide)).1⟩

/-- Claim C8: on a threshold change the Runtime Patcher, run over a generated
`AbsoluteSet` fragment (either flags-liveness variant), overwrites in place
exactly the two threshold compares — the positive and the negated immediate —
with the corresponding new values and succeeds; and over any fragment it
fails fatally exactly when the scan cannot find two patch sites. -/
theorem c8_theorem (eflags_live : Bool) (t nt : Int) (ht : 0 < t) :
    esp_fastpath_update_swap_threshold t nt (absolute_fragment eflags_live t) =
      some (absolute_fragment eflags_live nt) ∧
    (∀ frag : List GenInstr,
      esp_fastpath_update_swap_threshold t nt frag = none ↔
        frag.countP (is_threshold_cmp t) < 2) := by
  have hne : t ≠ 0 := ht.ne'
  have hneg : ¬(-t = t) := by omega
  constructor
  · cases eflags_live <;>
      simp [absolute_fragment, esp_fastpath_update_swap_threshold, patch_scan,
        patch_one, hne, hneg]
  · intro frag
    unfold esp_fastpath_update_swap_threshold
    rw [patch_scan_count t nt frag 0 (by omega)]
    constructor
    · intro h
      by_contra hc
      rw [if_pos (show min (0 + frag.countP (is_threshold_cmp t)) 2 = 2 by omega)] at h
      exact Option.some_ne_none _ h
    · intro h
      rw [if_neg (show ¬ min (0 + frag.countP (is_threshold_cmp t)) 2 = 2 by omega)]

/-- Witness for C8 at the concrete threshold change 2048 → 6144 on the
no-flags-save `AbsoluteSet` fragment. -/
theorem c8_witness :
    (0 : Int) < 2048 ∧
    esp_fastpath_update_swap_threshold 2048 6144 (absolute_fragment false 2048) =
      some (absolute_fragment false 6144) :=
  ⟨by decide, (c8_theorem false 2048 6144 (by decide)).1⟩

/-- Claim C9: with the check enabled, when bounds resolve for the written
address the errant-stack handler marks `[max(addr - PAGE_SIZE, region
start), start_addr)` — one page below the write, clipped to the region start,
and stopping at the bytes being written — Unaddressable and returns handled;
bytes at or above `start_addr` are never touched; when bounds cannot be
resolved it mutates no shadow state and returns not handled. -/
theorem c9_theorem (env : RegionEnv) (addr start_addr sz : Int) (shadow : Shadow)
    (st : SwapState) :
    (∀ b s : Int, get_stack_region_bounds env addr = some (b, s) →
      (handle_push_addressable true env addr start_addr sz shadow st).handled =
        true ∧
      (handle_push_addressable true env addr start_addr sz shadow st).shadow =
        shadow_set_range (max (addr - PAGE_SIZE) b) start_addr
          SVal.unaddressable shadow ∧
      (∀ a : Int, start_addr ≤ a →
        (handle_push_addressable true env addr start_addr sz shadow st).shadow a =
          shadow a)) ∧
    (get_stack_region_bounds env addr = none →
      (handle_push_addressable true env addr start_addr sz shadow st).handled =
        false ∧
      (handle_push_addressable true env addr start_addr sz shadow st).shadow =
        shadow) := by
  constructor
  · intro b s hg
    have hmax : (if addr - PAGE_SIZE < b then b else addr - PAGE_SIZE) =
        max (addr - PAGE_SIZE) b := by
      split <;> omega
    refine ⟨?_, ?_, ?_⟩
    · simp [handle_push_addressable, hg]
    · simp only [handle_push_addressable, hg]
      rw [if_pos trivial]
      dsimp only
      rw [hmax]
    · intro a ha
      simp only [handle_push_addressable, hg]
      rw [if_pos trivial]
      dsimp only
      exact shadow_set_range_outside _ _ _ _ _ (Or.inr ha)
  · intro hg
    constructor <;> simp [handle_push_addressable, hg]

/-- Witness for C9 at concrete resolved and unresolved cases: a push at
address 5000 writing bytes from 4996 inside the mapping `[0, 1000000)`, and
the same push with no resolvable bounds. -/
theorem c9_witness :
    ((handle_push_addressable true inbounds_env 5000 4996 4 defined_shadow
        example_state).handled = true ∧
      (handle_push_addressable true inbounds_env 5000 4996 4 defined_shadow
          example_state).shadow =
        shadow_set_range (max ((5000 : Int) - PAGE_SIZE) 0) 4996
          SVal.unaddressable defined_shadow) ∧
    ((handle_push_addressable true none_env 5000 4996 4 defined_shadow
        example_state).handled = false ∧
      (handle_push_addressable true none_env 5000 4996 4 defined_shadow
          example_state).shadow = defined_shadow) := by
  constructor
  · have h :=
      (c9_theorem inbounds_env 5000 4996 4 defined_shadow example_state).1 0 1000000
        (by decide)
    exact ⟨h.1, h.2.1⟩
  · exact (c9_theorem none_env 5000 4996 4 defined_shadow example_state).2 (by decide)

/-- Claim C10 (implicit): for the relative adjustment kinds
(RelativeIncrease, RelativeDecrease, PostPopImmediate) the handler never
performs a region lookup or swap classification — the whole global swap
state, lookups and counters included, is untouched regardless of the delta's
size; an above-threshold relative delta only adds one warning; the shadow or
zero-fill update is still applied as an ordinary in-stack adjustment; and
only the AbsoluteSet and MaskAnd kinds can ever reach the classifier. -/
theorem c10_theorem (sp : Bool) (env : RegionEnv) (type : EspAdjust) (val : Int)
    (m : Machine)
    (h : type = EspAdjust.negative ∨ type = EspAdjust.positive ∨
      type = EspAdjust.ret_immed) :
    (handle_esp_adjust sp env type val m).swap = m.swap ∧
    (handle_esp_adjust sp env type val m).warnings =
      m.warnings +
        (if esp_adjust_delta type val m.esp > m.swap.stack_swap_threshold ∨
            esp_adjust_delta type val m.esp < -m.swap.stack_swap_threshold
         then 1 else 0) ∧
    (sp = true → (handle_esp_adjust sp env type val m).mem = m.mem ∧
      (handle_esp_adjust sp env type val m).shadow =
        (if esp_adjust_delta type val m.esp > 0 then
           shadow_set_range (esp_adjust_base type m.esp)
             (esp_adjust_base type m.esp + esp_adjust_delta type val m.esp)
             SVal.unaddressable m.shadow
         else if esp_adjust_delta type val m.esp < 0 then
           shadow_set_range
             (esp_adjust_base type m.esp + esp_adjust_delta type val m.esp)
             (esp_adjust_base type m.esp) SVal.undefined m.shadow
         else m.shadow)) ∧
    (sp = false → (handle_esp_adjust sp env type val m).shadow = m.shadow ∧
      (handle_esp_adjust sp env type val m).mem =
        (if esp_adjust_delta type val m.esp < 0 then
           memset_zero
             (esp_adjust_base type m.esp + esp_adjust_delta type val m.esp)
             (-(esp_adjust_delta type val m.esp)) m.mem
         else m.mem)) ∧
    (∀ (env2 : RegionEnv) (type2 : EspAdjust) (val2 : Int) (m2 : Machine),
      (handle_esp_adjust sp env2 type2 val2 m2).swap.stack_swap_triggers ≠
        m2.swap.stack_swap_triggers →
      type2 = EspAdjust.absolute ∨ type2 = EspAdjust.and_mask) := by
  have hnoty : ¬(type = EspAdjust.absolute ∨ type = EspAdjust.and_mask) := by
    rcases h with h | h | h <;> subst h <;> rintro (h2 | h2) <;> revert h2 <;> decide
  have hns : ¬ confirmed_swap env type val m := fun hc => hnoty hc.1.1
  have heq := handle_esp_adjust_eq sp env type val m hns
  refine ⟨?_, ?_, ?_, ?_, ?_⟩
  · rw [heq, esp_adjust_tail_swap]
    dsimp only
    rw [if_neg (fun hc => hnoty hc.1)]
  · rw [heq, esp_adjust_tail_warnings]
    dsimp only
    rw [if_neg hnoty]
  · rintro rfl
    rw [heq] at *
    exact ⟨by rw [esp_adjust_tail_mem_shadowed],
           by rw [esp_adjust_tail_shadow_shadowed]⟩
  · rintro rfl
    rw [heq] at *
    exact ⟨by rw [esp_adjust_tail_shadow_light],
           by rw [esp_adjust_tail_mem_light]⟩
  · intro env2 type2 val2 m2 htr
    by_cases hty2 : type2 = EspAdjust.absolute ∨ type2 = EspAdjust.and_mask
    · exact hty2
    · exfalso
      apply htr
      have hns2 : ¬ confirmed_swap env2 type2 val2 m2 := fun hc => hty2 hc.1.1
      rw [handle_esp_adjust_eq sp env2 type2 val2 m2 hns2, esp_adjust_tail_swap]
      dsimp only
      rw [if_neg (fun hc => hty2 hc.1)]

/-- Witness for C10 at a concrete above-threshold relative adjustment
(delta 9999 at threshold 4096): the global swap state is untouched. -/
theorem c10_witness :
    (EspAdjust.positive = EspAdjust.negative ∨
      EspAdjust.positive = EspAdjust.positive ∨
      EspAdjust.positive = EspAdjust.ret_immed) ∧
    (handle_esp_adjust true inbounds_env EspAdjust.positive 9999
        example_machine).swap = example_machine.swap :=
  ⟨by decide,
   (c10_theorem true inbounds_env EspAdjust.positive 9999 example_machine
     (by decide)).1⟩

end DrMemoryStack
